import Mathlib

set_option maxHeartbeats 1000000

/-!
Shallow embedding of the Kurobbs auto-checkin client (src/auto_checkin.py).

The network is abstracted: each embedded operation takes the parsed response
envelope(s) it would receive as explicit arguments.  A `Response` models the
pydantic `Response` model; Python `Optional` fields become `Option`;
`KurobbsClientException` values are represented by their message string; an
uncaught Python `IndexError` (the `user_game_list[0]` access in `checkin`)
is modelled by the `PyError.indexError` value of an `Except`.
-/

/-- One bound game role, as a dictionary with the four keys the code reads
via `.get`; an absent key is `none`. -/
structure Role where
  gameId : Option Int
  serverId : Option String
  roleId : Option String
  userId : Option String
deriving DecidableEq, Repr

/-- The shape of the `data` payload of an envelope: either a list of role
dictionaries (the `isinstance(res.data, list)` branch) or some non-list
value. -/
inductive PyData where
  | roleList : List Role → PyData
  | nonList : PyData
deriving DecidableEq, Repr

/-- The response envelope (pydantic model `Response`): `code`, `msg`,
optional `success`, optional `data`. -/
structure Response where
  code : Int
  msg : String
  success : Option Bool
  data : Option PyData
deriving DecidableEq, Repr

/-- An uncaught Python error escaping an embedded operation. -/
inductive PyError where
  | indexError
deriving DecidableEq, Repr

/-- The mutable state of a `KurobbsClient`: the insertion-ordered `result`
dictionary (action name, success message) and the `exceptions` list (each
exception represented by its message string). -/
structure ClientState where
  result : List (String × String)
  exceptions : List String
deriving DecidableEq, Repr

/-- The form payload posted to the reward-checkin endpoint (`data` built in
`checkin`). -/
structure CheckinRequest where
  gameId : Int
  serverId : Option String
  roleId : Option String
  userId : Option String
  reqMonth : String
deriving DecidableEq, Repr

/-- Python `f"{month:02d}"` for the Beijing-time month. -/
def reqMonth_string (m : Nat) : String :=
  if m < 10 then "0" ++ toString m else toString m

/-- `KurobbsClient.get_user_game_list`, given the parsed envelope of the
findRoleList request.  `Except.error` carries the message of the raised
`KurobbsClientException`. -/
def get_user_game_list (res : Response) : Except String (List Role) :=
  if res.code ≠ 200 then
    Except.error ("API 请求失败: " ++ res.msg ++ " (code: " ++ toString res.code ++ ")")
  else
    match res.data with
    | some (PyData.roleList l) =>
        if l.length = 0 then
          Except.error "未找到游戏角色信息，请检查是否绑定角色"
        else
          Except.ok l
    | _ => Except.error "未找到游戏角色信息，请检查是否绑定角色"

/-- The reward-checkin form payload built from `first_role` (dict `.get`
with default 2 for `gameId`, plain `.get` for the rest). -/
def build_checkin_data (r : Role) (month : Nat) : CheckinRequest :=
  { gameId := (r.gameId).getD 2
    serverId := r.serverId
    roleId := r.roleId
    userId := r.userId
    reqMonth := reqMonth_string month }

/-- `KurobbsClient.checkin`.  `exceptions` is the client's exception list on
entry; `roleRes` is the parsed envelope of the findRoleList request;
`signNet` maps the posted reward-checkin payload to the parsed envelope the
endpoint answers with.  Returns the response together with the updated
exception list, or an uncaught `IndexError` (the `user_game_list[0]`
access, which the `except KurobbsClientException` clause does not catch). -/
def checkin (exceptions : List String) (roleRes : Response) (month : Nat)
    (signNet : CheckinRequest → Response) : Except PyError (Response × List String) :=
  match get_user_game_list roleRes with
  | Except.error e =>
      Except.ok ({ code := -1, msg := e, success := none, data := none }, exceptions ++ [e])
  | Except.ok user_game_list =>
      match user_game_list[0]? with
      | none => Except.error PyError.indexError
      | some first_role =>
          Except.ok (signNet (build_checkin_data first_role month), exceptions)

/-- `KurobbsClient._process_sign_action`: given the client state and the
envelope the action method returned, either record the success message
under the action name or append the failure message to the exception
list.  Python truthiness of `resp.success : Optional[bool]` is
`resp.success = some true`. -/
def _process_sign_action (st : ClientState) (action_name : String) (resp : Response)
    (success_message : String) (failure_message : String) : ClientState :=
  if resp.success = some true then
    { st with result := st.result ++ [(action_name, success_message)] }
  else
    { st with exceptions := st.exceptions ++ [failure_message] }

/-- The `msg` property: `", ".join(self.result.values()) + "!"`. -/
def ClientState.msg (st : ClientState) : String :=
  String.intercalate ", " (st.result.map Prod.snd) ++ "!"

/-- `KurobbsClient._log`: the informational log line emitted (when the
summary string is truthy) and the message of the aggregate
`KurobbsClientException` raised (when the exception list is non-empty). -/
def _log (st : ClientState) : Option String × Option String :=
  (if st.msg = "" then none else some st.msg,
   if st.exceptions = [] then none else some (String.intercalate ", " st.exceptions))

/-- Order in which `start` invokes the two actions. -/
inductive ActionTag where
  | checkinAction
  | signInAction
deriving DecidableEq, Repr

/-- Observable outcome of one `KurobbsClient.start` run. -/
structure RunResult where
  state : ClientState
  checkinResp : Response
  logged : Option String
  raised : Option String
  trace : List ActionTag
deriving DecidableEq, Repr

/-- `KurobbsClient.start` on a freshly constructed client (`result = {}`,
`exceptions = []`).  `roleRes` is the findRoleList envelope, `signNet` the
reward-checkin endpoint, `signInRes` the envelope returned by `sign_in`
(the user/signIn request).  An uncaught error inside the checkin step
aborts the run before `sign_in` is invoked. -/
def start (roleRes : Response) (month : Nat) (signNet : CheckinRequest → Response)
    (signInRes : Response) : Except PyError RunResult :=
  match checkin [] roleRes month signNet with
  | Except.error e => Except.error e
  | Except.ok (resp, exc1) =>
      let st1 : ClientState := { result := [], exceptions := exc1 }
      let st2 := _process_sign_action st1 "checkin" resp "签到奖励签到成功" "签到奖励签到失败"
      let st3 := _process_sign_action st2 "sign_in" signInRes "社区签到成功" "社区签到失败"
      Except.ok { state := st3
                  checkinResp := resp
                  logged := (_log st3).1
                  raised := (_log st3).2
                  trace := [ActionTag.checkinAction, ActionTag.signInAction] }

/-- Outcome of the `main` entry point: the notification sent (if any) and
the process exit code. -/
structure MainOutcome where
  notification : Option String
  exitCode : Nat
deriving DecidableEq, Repr

/-- The `main` entry point around `start`: a raised
`KurobbsClientException` sends the fixed failure notification and exits 1;
an unexpected error exits 1 with no notification; otherwise the summary is
forwarded to the notifier when truthy. -/
def mainRun (roleRes : Response) (month : Nat) (signNet : CheckinRequest → Response)
    (signInRes : Response) : MainOutcome :=
  match start roleRes month signNet signInRes with
  | Except.error _ => { notification := none, exitCode := 1 }
  | Except.ok r =>
      match r.raised with
      | some _ => { notification := some "签到任务失败!", exitCode := 1 }
      | none =>
          { notification := if r.state.msg = "" then none else some r.state.msg
            exitCode := 0 }

/-! ### Concrete test inputs used by witnesses and counterexamples -/

/-- First role of the two-role lookup payload (gameId 8, not the looked-up
game 3). -/
def roleFirst : Role :=
  { gameId := some 8, serverId := some "s1", roleId := some "r1", userId := some "u1" }

/-- Second role of the two-role lookup payload; its gameId 3 matches the
game id `checkin` looks up. -/
def roleSecond : Role :=
  { gameId := some 3, serverId := some "s2", roleId := some "r2", userId := some "u2" }

/-- A successful findRoleList envelope carrying two roles. -/
def respLookupTwoRoles : Response :=
  { code := 200, msg := "ok", success := none, data := some (PyData.roleList [roleFirst, roleSecond]) }

/-- An envelope with a truthy `success` flag. -/
def respSuccess : Response :=
  { code := 200, msg := "ok", success := some true, data := none }

/-- An envelope with `success = false`. -/
def respNoSuccess : Response :=
  { code := 200, msg := "ok", success := some false, data := none }

/-- A findRoleList envelope with a non-success code. -/
def respBadCode : Response :=
  { code := 500, msg := "boom", success := none, data := none }

/-- A success-coded findRoleList envelope whose payload is an empty list. -/
def respEmptyList : Response :=
  { code := 200, msg := "ok", success := none, data := some (PyData.roleList []) }

/-- A reward-checkin endpoint that always reports success. -/
def netSuccess : CheckinRequest → Response := fun _ => respSuccess

/-- A reward-checkin endpoint echoing the request's gameId in `msg`, to
observe which role the request was built from. -/
def netEchoGameId : CheckinRequest → Response :=
  fun req => { code := 0, msg := toString req.gameId, success := none, data := none }

/-- The payload condition under which `get_user_game_list` reports "no game
role found": absent, not list-shaped, or an empty list (the source's
`not isinstance(res.data, list) or len(res.data) == 0`). -/
def payload_missing_or_empty (d : Option PyData) : Bool :=
  match d with
  | some (PyData.roleList l) => l.isEmpty
  | _ => true

/-! ### Basic lemmas -/

/-- The summary string always ends in `"!"`, hence is never empty. -/
theorem ClientState.msg_ne_empty (st : ClientState) : st.msg ≠ "" := by
  intro h
  have h2 := congrArg String.length h
  rw [ClientState.msg, String.length_append] at h2
  have e1 : ("!").length = 1 := rfl
  have e2 : ("").length = 0 := rfl
  rw [e1, e2] at h2
  omega

/-- A successful role lookup returns exactly the list payload, which is
non-empty, and only under a success code. -/
theorem get_user_game_list_ok_iff (res : Response) (l : List Role) :
    get_user_game_list res = Except.ok l ↔
      res.code = 200 ∧ res.data = some (PyData.roleList l) ∧ l ≠ [] := by
  unfold get_user_game_list
  by_cases hc : res.code = 200
  · rw [if_neg (by simp [hc])]
    cases hd : res.data with
    | none => simp [hc]
    | some d =>
      cases d with
      | nonList => simp [hc]
      | roleList l2 =>
        dsimp only
        by_cases hl : l2.length = 0
        · rw [if_pos hl]
          have hnil : l2 = [] := by simpa using hl
          subst hnil
          simp [hc]
        · rw [if_neg hl]
          have hne : l2 ≠ [] := by simpa using hl
          constructor
          · intro h
            injection h with h2
            subst h2
            exact ⟨hc, rfl, hne⟩
          · rintro ⟨-, h2, -⟩
            simp only [Option.some.injEq, PyData.roleList.injEq] at h2
            rw [h2]
  · rw [if_pos (by simpa using hc)]
    simp [hc]

/-- Case analysis of `checkin`: either the lookup failed, the exception was
recorded and the synthetic envelope returned, or the lookup succeeded with
a non-empty list and the reward request was built from its head. -/
theorem checkin_cases (exceptions : List String) (roleRes : Response) (month : Nat)
    (signNet : CheckinRequest → Response) :
    (∃ e, get_user_game_list roleRes = Except.error e ∧
       checkin exceptions roleRes month signNet =
         Except.ok ({ code := -1, msg := e, success := none, data := none },
                    exceptions ++ [e])) ∨
    (∃ r rest, get_user_game_list roleRes = Except.ok (r :: rest) ∧
       checkin exceptions roleRes month signNet =
         Except.ok (signNet (build_checkin_data r month), exceptions)) := by
  cases hg : get_user_game_list roleRes with
  | error e =>
      left
      exact ⟨e, rfl, by unfold checkin; rw [hg]⟩
  | ok l =>
      right
      have hne : l ≠ [] := ((get_user_game_list_ok_iff roleRes l).mp hg).2.2
      cases l with
      | nil => exact absurd rfl hne
      | cons r rest =>
          exact ⟨r, rest, rfl, by unfold checkin; rw [hg]; simp⟩

/-- `checkin` when the role lookup raised: the exception is recorded and a
synthetic failure envelope is returned. -/
theorem checkin_of_lookup_error (exceptions : List String) (roleRes : Response) (month : Nat)
    (signNet : CheckinRequest → Response) (e : String)
    (h : get_user_game_list roleRes = Except.error e) :
    checkin exceptions roleRes month signNet =
      Except.ok ({ code := -1, msg := e, success := none, data := none }, exceptions ++ [e]) := by
  unfold checkin
  rw [h]

/-- `checkin` never escapes with an uncaught error. -/
theorem checkin_never_uncaught (exceptions : List String) (roleRes : Response) (month : Nat)
    (signNet : CheckinRequest → Response) (pe : PyError) :
    checkin exceptions roleRes month signNet ≠ Except.error pe := by
  intro h
  rcases checkin_cases exceptions roleRes month signNet with ⟨e, -, hc⟩ | ⟨r0, rest, -, hc⟩ <;>
    rw [hc] at h <;> exact Except.noConfusion h

/-- Unfolding of `start` given the outcome of the checkin step. -/
theorem start_eq (roleRes : Response) (month : Nat) (signNet : CheckinRequest → Response)
    (signInRes : Response) (resp : Response) (exc1 : List String)
    (hc : checkin [] roleRes month signNet = Except.ok (resp, exc1)) :
    start roleRes month signNet signInRes =
      Except.ok
        { state :=
            _process_sign_action
              (_process_sign_action { result := [], exceptions := exc1 } "checkin" resp
                "签到奖励签到成功" "签到奖励签到失败")
              "sign_in" signInRes "社区签到成功" "社区签到失败"
          checkinResp := resp
          logged :=
            (_log (_process_sign_action
              (_process_sign_action { result := [], exceptions := exc1 } "checkin" resp
                "签到奖励签到成功" "签到奖励签到失败")
              "sign_in" signInRes "社区签到成功" "社区签到失败")).1
          raised :=
            (_log (_process_sign_action
              (_process_sign_action { result := [], exceptions := exc1 } "checkin" resp
                "签到奖励签到成功" "签到奖励签到失败")
              "sign_in" signInRes "社区签到成功" "社区签到失败")).2
          trace := [ActionTag.checkinAction, ActionTag.signInAction] } := by
  unfold start
  rw [hc]

/-- What `_log` produces: the summary is always logged, and the aggregate
exception is raised exactly when the exception list is non-empty, with the
comma-joined message. -/
theorem _log_spec (st : ClientState) :
    (_log st).1 = some st.msg ∧
    ((_log st).2 = none ↔ st.exceptions = []) ∧
    (st.exceptions ≠ [] → (_log st).2 = some (String.intercalate ", " st.exceptions)) := by
  refine ⟨?_, ?_, ?_⟩
  · unfold _log
    simp [ClientState.msg_ne_empty st]
  · unfold _log
    by_cases h : st.exceptions = [] <;> simp [h]
  · intro h
    unfold _log
    simp [h]

/-- `_process_sign_action` records the action's outcome in the state. -/
theorem process_records (st : ClientState) (name : String) (resp : Response) (sm fm : String) :
    (resp.success = some true → (name, sm) ∈ (_process_sign_action st name resp sm fm).result) ∧
    (resp.success ≠ some true → fm ∈ (_process_sign_action st name resp sm fm).exceptions) := by
  unfold _process_sign_action
  by_cases h : resp.success = some true <;> simp [h]

/-- Closed form of the state after both `_process_sign_action` steps of a run. -/
theorem two_actions_state (exc1 : List String) (resp signInRes : Response) :
    _process_sign_action
        (_process_sign_action { result := [], exceptions := exc1 } "checkin" resp
          "签到奖励签到成功" "签到奖励签到失败")
        "sign_in" signInRes "社区签到成功" "社区签到失败" =
      { result :=
          (if resp.success = some true then [("checkin", "签到奖励签到成功")] else [])
            ++ (if signInRes.success = some true then [("sign_in", "社区签到成功")] else [])
        exceptions :=
          exc1 ++ (if resp.success = some true then [] else ["签到奖励签到失败"])
            ++ (if signInRes.success = some true then [] else ["社区签到失败"]) } := by
  by_cases h1 : resp.success = some true <;> by_cases h2 : signInRes.success = some true <;>
    simp [_process_sign_action, h1, h2]

/-! ### Claim theorems -/

/-- C1: after both actions have executed, the run raises the aggregate
exception iff the accumulated exception list is non-empty, and the
aggregate message is the comma-joined string form of every collected
exception in collection order (so a partial success, where the other
action recorded a success message, still raises). -/
theorem C1_aggregate_error_iff (roleRes : Response) (month : Nat)
    (signNet : CheckinRequest → Response) (signInRes : Response) :
    ∃ r, start roleRes month signNet signInRes = Except.ok r ∧
      (r.raised = none ↔ r.state.exceptions = []) ∧
      (r.state.exceptions ≠ [] →
        r.raised = some (String.intercalate ", " r.state.exceptions)) := by
  rcases checkin_cases [] roleRes month signNet with ⟨e, -, hc⟩ | ⟨r0, rest, -, hc⟩ <;>
    exact ⟨_, start_eq roleRes month signNet signInRes _ _ hc,
           (_log_spec _).2.1, (_log_spec _).2.2⟩

/-- C2: when the role lookup inside `checkin` fails with a
`KurobbsClientException`, `checkin` does not throw: the lookup error is
appended to the exception list and a synthetic failure envelope with
`code = -1` and absent (falsy) `success` is returned to the caller. -/
theorem C2_lookup_error_synthetic (exceptions : List String) (roleRes : Response)
    (month : Nat) (signNet : CheckinRequest → Response) (e : String)
    (h : get_user_game_list roleRes = Except.error e) :
    checkin exceptions roleRes month signNet =
      Except.ok ({ code := -1, msg := e, success := none, data := none },
        exceptions ++ [e]) :=
  checkin_of_lookup_error exceptions roleRes month signNet e h

/-- C2 witness: a concrete non-success lookup envelope. -/
theorem C2_witness :
    checkin [] respBadCode 1 netSuccess =
      Except.ok ({ code := -1, msg := "API 请求失败: boom (code: 500)",
                   success := none, data := none },
        ["API 请求失败: boom (code: 500)"]) :=
  C2_lookup_error_synthetic [] respBadCode 1 netSuccess "API 请求失败: boom (code: 500)" rfl

/-- C3: whatever envelope the checkin step is converted to (including every
lookup failure), `start` still invokes `sign_in` afterwards and records its
outcome; the checkin step never aborts the run. -/
theorem C3_sign_in_always_runs (roleRes : Response) (month : Nat)
    (signNet : CheckinRequest → Response) (signInRes : Response) :
    ∃ r, start roleRes month signNet signInRes = Except.ok r ∧
      r.trace = [ActionTag.checkinAction, ActionTag.signInAction] ∧
      (signInRes.success = some true → ("sign_in", "社区签到成功") ∈ r.state.result) ∧
      (signInRes.success ≠ some true → "社区签到失败" ∈ r.state.exceptions) := by
  rcases checkin_cases [] roleRes month signNet with ⟨e, -, hc⟩ | ⟨r0, rest, -, hc⟩ <;>
    exact ⟨_, start_eq roleRes month signNet signInRes _ _ hc, rfl,
           (process_records _ "sign_in" signInRes _ _).1,
           (process_records _ "sign_in" signInRes _ _).2⟩

/-- C4: for every role list of length ≥ 1 returned by the lookup, the
reward-checkin request is built from the element at index 0,
deterministically. -/
theorem C4_first_role (exceptions : List String) (roleRes : Response) (month : Nat)
    (signNet : CheckinRequest → Response) (r : Role) (rest : List Role)
    (h : get_user_game_list roleRes = Except.ok (r :: rest)) :
    checkin exceptions roleRes month signNet =
      Except.ok (signNet (build_checkin_data r month), exceptions) := by
  unfold checkin
  rw [h]
  simp

/-- C4 witness: a two-element role list whose second element's gameId (3)
matches the looked-up game; the request is still built from the first
element, whose gameId is 8. -/
theorem C4_witness :
    checkin [] respLookupTwoRoles 4 netEchoGameId =
      Except.ok (netEchoGameId (build_checkin_data roleFirst 4), ([] : List String)) ∧
    (build_checkin_data roleFirst 4).gameId = 8 ∧
    roleSecond.gameId = some 3 ∧
    (netEchoGameId (build_checkin_data roleFirst 4)).msg = "8" :=
  ⟨C4_first_role [] respLookupTwoRoles 4 netEchoGameId roleFirst [roleSecond] rfl,
   rfl, rfl, rfl⟩

/-- C5 counterexample: at a concrete non-success envelope the raised
message begins with the Chinese "API 请求失败:", not the English
"API request failed:" template the claim states. -/
theorem C5_counterexample :
    get_user_game_list respBadCode = Except.error "API 请求失败: boom (code: 500)" ∧
    "API 请求失败: boom (code: 500)" ≠ "API request failed: boom (code: 500)" :=
  ⟨rfl, by decide⟩

/-- C5 amended: for every envelope whose code is not 200,
`get_user_game_list` fails with "API 请求失败: <message> (code: <code>)",
embedding the envelope's original message and code verbatim, and returns
no partial result. -/
theorem C5_amended_nonsuccess_code (res : Response) (h : res.code ≠ 200) :
    get_user_game_list res =
      Except.error ("API 请求失败: " ++ res.msg ++ " (code: " ++ toString res.code ++ ")") := by
  unfold get_user_game_list
  rw [if_pos h]

/-- C5 witness: the amended failure shape at a concrete envelope. -/
theorem C5_witness :
    get_user_game_list respBadCode =
      Except.error ("API 请求失败: " ++ respBadCode.msg ++ " (code: "
        ++ toString respBadCode.code ++ ")") :=
  C5_amended_nonsuccess_code respBadCode (by decide)

/-- C6 counterexample: at a success-coded envelope with an empty-list
payload the raised message is the Chinese
"未找到游戏角色信息，请检查是否绑定角色", not the English "no game role
found, check binding" the claim states. -/
theorem C6_counterexample :
    get_user_game_list respEmptyList =
      Except.error "未找到游戏角色信息，请检查是否绑定角色" ∧
    "未找到游戏角色信息，请检查是否绑定角色" ≠ "no game role found, check binding" :=
  ⟨rfl, by decide⟩

/-- C6 amended: for every success-coded envelope whose payload is absent,
not list-shaped or an empty list, `get_user_game_list` fails with the
(Chinese) "no game role found" message; and `checkin` never escapes with
an uncaught index error, so its first-element access is only reached on a
non-empty list. -/
theorem C6_amended_no_role_error (res : Response) (hcode : res.code = 200)
    (hbad : payload_missing_or_empty res.data = true) :
    get_user_game_list res = Except.error "未找到游戏角色信息，请检查是否绑定角色" ∧
    ∀ (exceptions : List String) (roleRes2 : Response) (month : Nat)
      (signNet : CheckinRequest → Response),
      checkin exceptions roleRes2 month signNet ≠ Except.error PyError.indexError := by
  constructor
  · unfold get_user_game_list
    rw [if_neg (by simp [hcode])]
    cases hd : res.data with
    | none => rfl
    | some d =>
      cases d with
      | nonList => rfl
      | roleList l =>
          cases l with
          | nil => rfl
          | cons a as =>
              rw [hd] at hbad
              simp [payload_missing_or_empty] at hbad
  · intro exceptions roleRes2 month signNet
    exact checkin_never_uncaught exceptions roleRes2 month signNet PyError.indexError

/-- C6 witness: the amended claim at the concrete empty-list envelope. -/
theorem C6_witness :
    get_user_game_list respEmptyList =
      Except.error "未找到游戏角色信息，请检查是否绑定角色" ∧
    checkin [] respEmptyList 1 netSuccess ≠ Except.error PyError.indexError :=
  ⟨(C6_amended_no_role_error respEmptyList rfl rfl).1,
   (C6_amended_no_role_error respEmptyList rfl rfl).2 [] respEmptyList 1 netSuccess⟩

/-- C7: for each named action and every envelope it returns, the recording
step stores the success message under the action name when the envelope's
`success` flag is truthy and otherwise appends the action's failure
exception; the two outcomes are mutually exclusive and each leaves the
other collection untouched. -/
theorem C7_record_dichotomy (st : ClientState) (action_name : String) (resp : Response)
    (success_message failure_message : String) :
    (resp.success = some true →
      _process_sign_action st action_name resp success_message failure_message =
        { st with result := st.result ++ [(action_name, success_message)] }) ∧
    (resp.success ≠ some true →
      _process_sign_action st action_name resp success_message failure_message =
        { st with exceptions := st.exceptions ++ [failure_message] }) := by
  constructor
  · intro h
    unfold _process_sign_action
    rw [if_pos h]
  · intro h
    unfold _process_sign_action
    rw [if_neg h]

/-- C7 witness: the two outcomes at concrete truthy and falsy envelopes. -/
theorem C7_witness :
    _process_sign_action { result := [], exceptions := [] } "checkin" respSuccess
        "签到奖励签到成功" "签到奖励签到失败" =
      { result := [("checkin", "签到奖励签到成功")], exceptions := [] } ∧
    _process_sign_action { result := [], exceptions := [] } "sign_in" respNoSuccess
        "社区签到成功" "社区签到失败" =
      { result := [], exceptions := ["社区签到失败"] } :=
  ⟨(C7_record_dichotomy { result := [], exceptions := [] } "checkin" respSuccess
      "签到奖励签到成功" "签到奖励签到失败").1 rfl,
   (C7_record_dichotomy { result := [], exceptions := [] } "sign_in" respNoSuccess
      "社区签到成功" "社区签到失败").2 (by decide)⟩

/-- An empty result dictionary yields the bare summary "!". -/
theorem msg_of_empty_result (st : ClientState) (h : st.result = []) : st.msg = "!" := by
  unfold ClientState.msg
  rw [h]
  rfl

/-- C8: the summary equals the comma-joined recorded success messages in
action execution order suffixed with "!", is exactly "!" when the success
set is empty, and is emitted as the informational log line on every run
(also those that go on to raise the aggregate exception). -/
theorem C8_summary_shape (roleRes : Response) (month : Nat)
    (signNet : CheckinRequest → Response) (signInRes : Response) :
    ∃ r, start roleRes month signNet signInRes = Except.ok r ∧
      r.logged = some r.state.msg ∧
      r.state.msg = String.intercalate ", " (r.state.result.map Prod.snd) ++ "!" ∧
      (r.state.result = [] → r.state.msg = "!") ∧
      r.state.result =
        (if r.checkinResp.success = some true then [("checkin", "签到奖励签到成功")] else [])
          ++ (if signInRes.success = some true then [("sign_in", "社区签到成功")] else []) := by
  rcases checkin_cases [] roleRes month signNet with ⟨e, -, hc⟩ | ⟨r0, rest, -, hc⟩ <;>
    exact ⟨_, start_eq roleRes month signNet signInRes _ _ hc, (_log_spec _).1, rfl,
           msg_of_empty_result _,
           congrArg ClientState.result (two_actions_state _ _ signInRes)⟩

/-- C9: when the role lookup fails, the run accumulates two error entries
for the checkin action — first the lookup error appended inside `checkin`,
then the generic checkin failure appended by the recording step (the
synthetic envelope's `success` is `none`, which is falsy) — and the
aggregate message comma-joins them in that order (followed by the sign-in
failure when that action also failed). -/
theorem C9_double_error (roleRes : Response) (month : Nat)
    (signNet : CheckinRequest → Response) (signInRes : Response) (e : String)
    (h : get_user_game_list roleRes = Except.error e) :
    ∃ r, start roleRes month signNet signInRes = Except.ok r ∧
      r.state.exceptions =
        [e, "签到奖励签到失败"]
          ++ (if signInRes.success = some true then [] else ["社区签到失败"]) ∧
      r.raised = some (String.intercalate ", "
        ([e, "签到奖励签到失败"]
          ++ (if signInRes.success = some true then [] else ["社区签到失败"]))) := by
  have hc := checkin_of_lookup_error [] roleRes month signNet e h
  have hexc : (_process_sign_action
      (_process_sign_action { result := ([] : List (String × String)), exceptions := [] ++ [e] }
        "checkin" { code := -1, msg := e, success := none, data := none }
        "签到奖励签到成功" "签到奖励签到失败")
      "sign_in" signInRes "社区签到成功" "社区签到失败").exceptions =
      [e, "签到奖励签到失败"]
        ++ (if signInRes.success = some true then [] else ["社区签到失败"]) := by
    rw [two_actions_state]
    by_cases h2 : signInRes.success = some true <;> simp [h2]
  refine ⟨_, start_eq roleRes month signNet signInRes _ _ hc, hexc, ?_⟩
  dsimp only
  rw [(_log_spec _).2.2 (by rw [hexc]; simp)]
  rw [hexc]

/-- C9 witness: concrete failing lookup with a succeeding sign-in. -/
theorem C9_witness :
    ∃ r, start respBadCode 1 netSuccess respSuccess = Except.ok r ∧
      r.state.exceptions =
        ["API 请求失败: boom (code: 500)", "签到奖励签到失败"]
          ++ (if respSuccess.success = some true then [] else ["社区签到失败"]) ∧
      r.raised = some (String.intercalate ", "
        (["API 请求失败: boom (code: 500)", "签到奖励签到失败"]
          ++ (if respSuccess.success = some true then [] else ["社区签到失败"]))) :=
  C9_double_error respBadCode 1 netSuccess respSuccess "API 请求失败: boom (code: 500)" rfl

/-- C10: the summary string is never empty (it always ends in "!"), so the
truthiness guard never suppresses the informational log line, and on a
zero-error run the guard before the notifier call passes: the summary is
forwarded to the notifier and the process exits 0. -/
theorem C10_summary_truthy (roleRes : Response) (month : Nat)
    (signNet : CheckinRequest → Response) (signInRes : Response) :
    (∀ st : ClientState, st.msg ≠ "") ∧
    ∃ r, start roleRes month signNet signInRes = Except.ok r ∧
      r.logged = some r.state.msg ∧
      (r.raised = none →
        mainRun roleRes month signNet signInRes =
          { notification := some r.state.msg, exitCode := 0 }) := by
  refine ⟨ClientState.msg_ne_empty, ?_⟩
  rcases checkin_cases [] roleRes month signNet with ⟨e, -, hc⟩ | ⟨r0, rest, -, hc⟩ <;>
    refine ⟨_, start_eq roleRes month signNet signInRes _ _ hc, (_log_spec _).1, ?_⟩ <;>
    · intro hr
      unfold mainRun
      rw [start_eq roleRes month signNet signInRes _ _ hc]
      dsimp only
      dsimp only at hr
      rw [hr]
      simp [ClientState.msg_ne_empty]
